import Mathlib

/-!
Shallow embedding of `src/src-tauri/src/main.rs` (SageFlow-Modern native
shell).  The Rust file defines two Tauri commands, `get_app_version` and
`show_about_dialog`, and a `main` whose `setup` closure resolves the window
named "main", shows it, and returns `Ok(())`.

The windowing runtime is modelled explicitly: a `Window` is an opaque handle,
a dialog-display request is a record of parent anchor, title and message, and
side effects are made visible by explicit state passing (a `RunState` carries
the build-embedded version constant and the list of dialog requests issued so
far).  The startup closure is modelled as a function of the runtime
environment (window registry and show outcomes) returning the ordered list of
steps it performed plus whether setup completed (`Ok(())` reached); a Rust
`unwrap` panic is an aborted run (completion flag `false`, trace cut short).
-/

/-- An opaque window handle owned by the windowing runtime
(`tauri::Window`). -/
structure Window where
  id : Nat
deriving DecidableEq, Repr

/-- A dialog-display request as issued to
`tauri::api::dialog::message(parent, title, message)`:
the parent window the dialog is anchored to (the code passes
`Some(&window)`), the dialog title and the dialog message. -/
structure DialogRequest where
  parent : Option Window
  title : String
  message : String
deriving DecidableEq, Repr

/-- Observable process state: the version constant embedded at build time by
`env!("CARGO_PKG_VERSION")` (immutable for the whole run), and the list of
dialog-display requests issued to the windowing runtime so far. -/
structure RunState where
  version : String
  dialogs : List DialogRequest
deriving DecidableEq, Repr

/-- `fn get_app_version() -> String { env!("CARGO_PKG_VERSION").to_string() }`
— returns the build-embedded version string; reads the state, never writes
it. -/
def get_app_version (s : RunState) : String × RunState :=
  (s.version, s)

/-- The `format!` template of `show_about_dialog` up to the `{}` placeholder. -/
def aboutHead : String := "SageFlow Accounting\n\nVersion: "

/-- The `format!` template of `show_about_dialog` after the `{}` placeholder. -/
def aboutTail : String :=
  "\n\nModern accounting software for Ethiopian businesses.\n\n© 2026 SageFlow"

/-- `format!("SageFlow Accounting\n\nVersion: {}\n\n…", version)`: the about
message built by `show_about_dialog` for a given version string. -/
def aboutMessage (version : String) : String :=
  aboutHead ++ version ++ aboutTail

/-- The dialog title passed by `show_about_dialog` to
`tauri::api::dialog::message`: the string literal `"About SageFlow"`. -/
def aboutTitle : String := "About SageFlow"

/-- `fn show_about_dialog(window: tauri::Window)` — reads
`env!("CARGO_PKG_VERSION")`, builds the about message, and issues one
dialog-display request `tauri::api::dialog::message(Some(&window),
"About SageFlow", message)`.  Returns unit (`()` in Rust) and the state with
the new request appended to the issued-request trace. -/
def show_about_dialog (window : Window) (s : RunState) : Unit × RunState :=
  let version := s.version
  let message := aboutMessage version
  ((), { s with
          dialogs := s.dialogs ++
            [{ parent := some window, title := aboutTitle, message := message }] })

/-- The runtime environment seen by the `setup` closure: the window registry
queried by `app.get_window(name)`, and the outcome the runtime gives to
`window.show()` (`Result<(), tauri::Error>`, modelled as `Except String
Unit`). -/
structure App where
  registry : String → Option Window
  showOutcome : Window → Except String Unit

/-- `app.get_window(name)` — looks up a window by logical name in the
runtime's window registry. -/
def get_window (app : App) (name : String) : Option Window :=
  app.registry name

/-- One observable step of the `setup` closure, in the order the code
performs them. -/
inductive StartupStep where
  /-- `app.get_window(name)` was called and returned this result. -/
  | getWindow (name : String) (result : Option Window)
  /-- `window.show()` was called on this window and succeeded iff `ok`. -/
  | showWindow (w : Window) (ok : Bool)
  /-- the closure returned `Ok(())`, signalling setup completion. -/
  | setupComplete
deriving DecidableEq, Repr

/-- The `setup` closure of `main`:
`let window = app.get_window("main").unwrap(); window.show().unwrap(); Ok(())`.
Returns the ordered trace of steps performed and whether `Ok(())` was reached
(`false` means an `unwrap` panicked and startup aborted before the Ready
state). -/
def setup (app : App) : List StartupStep × Bool :=
  match get_window app "main" with
  | none =>
      -- `.unwrap()` on `None` panics: startup aborts here.
      ([StartupStep.getWindow "main" none], false)
  | some window =>
      match app.showOutcome window with
      | Except.error _ =>
          -- `window.show().unwrap()` panics on `Err`: startup aborts here.
          ([StartupStep.getWindow "main" (some window),
            StartupStep.showWindow window false], false)
      | Except.ok _ =>
          ([StartupStep.getWindow "main" (some window),
            StartupStep.showWindow window true,
            StartupStep.setupComplete], true)

/-- The version component of an about message: the characters left after
removing the fixed head and tail of the template. -/
def versionOfMessage (msg : String) : String :=
  String.mk (((msg.data.drop aboutHead.length).take
    (msg.length - aboutHead.length - aboutTail.length)))

/-- The first line of a string: its characters up to the first newline. -/
def firstLine (s : String) : String :=
  String.mk (s.data.takeWhile (fun c => c ≠ '\n'))

/-- Modelled from the spec: the build-time version identifier is "sourced
from package metadata, embedded as a constant string at compile time".  The
package metadata (`Cargo.toml`, source of `CARGO_PKG_VERSION`) is not under
`src/`; per the spec the embedded value is the application's semantic
version, in particular a non-empty string. -/
def validBuildVersion (v : String) : Prop := v ≠ ""

/-- Test fixture: a runtime whose window registry is empty (no window named
"main" is registered). -/
def emptyApp : App :=
  { registry := fun _ => none, showOutcome := fun _ => Except.ok () }

/-- Test fixture: a runtime that registers window 0 under the name "main"
and lets every `show` succeed. -/
def okApp : App :=
  { registry := fun n => if n = "main" then some ⟨0⟩ else none,
    showOutcome := fun _ => Except.ok () }

/-- Test fixture: a process state with build version "1.2.3" and no dialog
requests issued yet. -/
def freshState : RunState := { version := "1.2.3", dialogs := [] }

/-! ## Shared helper lemmas -/

/-- A string's character count is the length of its character list. -/
theorem length_eq_length_data (s : String) : s.length = s.data.length := rfl

/-- `show_about_dialog` appends exactly the request
`(Some(&window), "About SageFlow", aboutMessage version)` to the trace of
issued dialog requests. -/
theorem show_about_dialog_dialogs (w : Window) (s : RunState) :
    (show_about_dialog w s).2.dialogs =
      s.dialogs ++ [{ parent := some w, title := aboutTitle,
                      message := aboutMessage s.version }] := rfl

/-- Removing the template's fixed head and tail from the about message
recovers exactly the interpolated version string. -/
theorem versionOfMessage_aboutMessage (v : String) :
    versionOfMessage (aboutMessage v) = v := by
  unfold versionOfMessage aboutMessage
  simp only [String.data_append, String.length_append, length_eq_length_data,
    List.append_assoc, List.drop_left, List.length_append]
  rw [show aboutHead.data.length + (v.data.length + aboutTail.data.length) -
      aboutHead.data.length - aboutTail.data.length = v.data.length by omega]
  rw [List.take_left]

/-! ## Claim theorems -/

/-- C1: when the embedded version is "1.2.3", the message built by
`show_about_dialog` (the message of the one dialog request it issues) equals
exactly `"SageFlow Accounting\n\nVersion: 1.2.3\n\nModern accounting
software for Ethiopian businesses.\n\n© 2026 SageFlow"`. -/
theorem about_message_exact_for_v123 (w : Window) (ds : List DialogRequest) :
    ∃ req : DialogRequest,
      (show_about_dialog w { version := "1.2.3", dialogs := ds }).2.dialogs
        = ds ++ [req] ∧
      req.message =
        "SageFlow Accounting\n\nVersion: 1.2.3\n\nModern accounting software for Ethiopian businesses.\n\n© 2026 SageFlow" :=
  ⟨_, rfl, rfl⟩

/-- C2 counterexample: at the concrete input (window 0, fresh state with
version "1.2.3"), the application name embedded in the built message (its
first line) is "SageFlow Accounting", yet the dialog title the code passes is
"About SageFlow", not "About " followed by that embedded application name.
So the dialog is not titled "About <AppName>" for the application name
embedded in the message. -/
theorem about_title_differs_from_message_app_name :
    (show_about_dialog ⟨0⟩ freshState).2.dialogs =
      [{ parent := some ⟨0⟩, title := "About SageFlow",
         message := aboutMessage "1.2.3" }] ∧
    firstLine (aboutMessage "1.2.3") = "SageFlow Accounting" ∧
    "About SageFlow" ≠ "About " ++ firstLine (aboutMessage "1.2.3") :=
  ⟨rfl, by decide, by decide⟩

/-- C2 amended: for every call, the about-dialog operation issues exactly one
dialog-display request to the windowing runtime, carrying the built message,
the fixed title "About SageFlow" (the first word of the application name, not
the full application name "SageFlow Accounting" embedded in the message), and
anchored to the window reference passed by the caller. -/
theorem about_dialog_fixed_title_anchored (w : Window) (s : RunState) :
    ∃ req : DialogRequest,
      (show_about_dialog w s).2.dialogs = s.dialogs ++ [req] ∧
      req.title = "About SageFlow" ∧
      req.parent = some w ∧
      req.message = aboutMessage s.version :=
  ⟨_, rfl, rfl, rfl, rfl⟩

/-- C3: if the window registry holds no window named "main", the setup entry
point aborts: it performs exactly one lookup (of the name "main", no retry
and no alternate name), issues no show request, never signals completion, and
the Ready state is not reached. -/
theorem setup_aborts_when_main_missing (app : App)
    (h : get_window app "main" = none) :
    (setup app).1 = [StartupStep.getWindow "main" none] ∧
    (setup app).2 = false := by
  unfold setup
  rw [h]
  exact ⟨rfl, rfl⟩

/-- Witness for C3 at the fixture runtime whose registry is empty. -/
theorem setup_aborts_when_main_missing_witness :
    (setup emptyApp).1 = [StartupStep.getWindow "main" none] ∧
    (setup emptyApp).2 = false :=
  setup_aborts_when_main_missing emptyApp rfl

/-- C4: the setup steps happen in the fixed order lookup, show, completion:
whenever completion was signalled, the trace is exactly the lookup of "main"
(yielding a window), then a successful show of that window, then the
completion signal, and setup succeeded; and whenever the show request fails,
the trace stops after the failed show and completion is never signalled. -/
theorem setup_step_order (app : App) :
    (StartupStep.setupComplete ∈ (setup app).1 →
      ∃ w : Window, get_window app "main" = some w ∧
        app.showOutcome w = Except.ok () ∧
        (setup app).1 = [StartupStep.getWindow "main" (some w),
                         StartupStep.showWindow w true,
                         StartupStep.setupComplete] ∧
        (setup app).2 = true) ∧
    (∀ (w : Window) (e : String), get_window app "main" = some w →
      app.showOutcome w = Except.error e →
      (setup app).1 = [StartupStep.getWindow "main" (some w),
                       StartupStep.showWindow w false] ∧
      (setup app).2 = false) := by
  constructor
  · intro hmem
    cases hw : get_window app "main" with
    | none => simp [setup, hw] at hmem
    | some w =>
      cases hs : app.showOutcome w with
      | error e => simp [setup, hw, hs] at hmem
      | ok u =>
        cases u
        exact ⟨w, rfl, hs, by simp [setup, hw, hs], by simp [setup, hw, hs]⟩
  · intro w e hw hs
    simp [setup, hw, hs]

/-- Witness for C4 at the fixture runtime that registers window 0 under
"main" and shows it successfully. -/
theorem setup_step_order_witness :
    StartupStep.setupComplete ∈ (setup okApp).1 ∧
    ∃ w : Window, get_window okApp "main" = some w ∧
      okApp.showOutcome w = Except.ok () ∧
      (setup okApp).1 = [StartupStep.getWindow "main" (some w),
                         StartupStep.showWindow w true,
                         StartupStep.setupComplete] ∧
      (setup okApp).2 = true :=
  ⟨by decide, (setup_step_order okApp).1 (by decide)⟩

/-- C5: for any process state with a valid build-embedded version constant,
`get_app_version` returns that constant, which is non-empty; the call leaves
the state unchanged, so a second call in the same run returns the identical
string. -/
theorem get_app_version_constant_nonempty (s : RunState)
    (h : validBuildVersion s.version) :
    (get_app_version s).1 = s.version ∧
    (get_app_version s).1 ≠ "" ∧
    (get_app_version s).2 = s ∧
    (get_app_version ((get_app_version s).2)).1 = (get_app_version s).1 :=
  ⟨rfl, h, rfl, rfl⟩

/-- Witness for C5 at the fixture state with version "1.2.3". -/
theorem get_app_version_constant_nonempty_witness :
    (get_app_version freshState).1 = freshState.version ∧
    (get_app_version freshState).1 ≠ "" ∧
    (get_app_version freshState).2 = freshState ∧
    (get_app_version ((get_app_version freshState).2)).1 =
      (get_app_version freshState).1 :=
  get_app_version_constant_nonempty freshState (by unfold validBuildVersion freshState; decide)

/-- C6: the version interpolated into the about message equals the string
the version operation returns: extracting the version component of the
message of the request issued by `show_about_dialog` yields exactly
`get_app_version`'s result on the same state. -/
theorem about_message_version_matches_get_app_version
    (s : RunState) (w : Window) :
    ∃ req : DialogRequest,
      (show_about_dialog w s).2.dialogs = s.dialogs ++ [req] ∧
      versionOfMessage req.message = (get_app_version s).1 :=
  ⟨_, rfl, versionOfMessage_aboutMessage s.version⟩

/-- C7: calling the version operation before and after an about-dialog call
yields identical strings; the about-dialog operation leaves the version state
untouched. -/
theorem about_dialog_preserves_version (s : RunState) (w : Window) :
    (get_app_version ((show_about_dialog w s).2)).1 = (get_app_version s).1 ∧
    ((show_about_dialog w s).2).version = s.version :=
  ⟨rfl, rfl⟩

/-- C8: a single `show_about_dialog` call returns unit (no value to the
caller) and issues exactly one dialog-display request: the issued-request
trace grows by exactly one element. -/
theorem about_dialog_issues_one_request (s : RunState) (w : Window) :
    (show_about_dialog w s).1 = () ∧
    (∃ req : DialogRequest,
      (show_about_dialog w s).2.dialogs = s.dialogs ++ [req]) ∧
    ((show_about_dialog w s).2).dialogs.length = s.dialogs.length + 1 := by
  refine ⟨rfl, ⟨_, rfl⟩, ?_⟩
  simp [show_about_dialog]

/-- C9: for every version string v, the message of the request issued by the
about-dialog operation equals the fixed template with v interpolated once
between the literal head and tail. -/
theorem about_message_template_general (v : String) (w : Window)
    (ds : List DialogRequest) :
    ∃ req : DialogRequest,
      (show_about_dialog w { version := v, dialogs := ds }).2.dialogs
        = ds ++ [req] ∧
      req.message =
        "SageFlow Accounting\n\nVersion: " ++ v ++
          "\n\nModern accounting software for Ethiopian businesses.\n\n© 2026 SageFlow" :=
  ⟨_, rfl, rfl⟩

/-- C10: the dialog content is independent of the window argument: two
about-dialog calls from the same state with different windows issue requests
with identical title and identical message, differing only in the anchoring
parent window. -/
theorem about_dialog_content_window_independent
    (s : RunState) (w1 w2 : Window) :
    ∃ r1 r2 : DialogRequest,
      (show_about_dialog w1 s).2.dialogs = s.dialogs ++ [r1] ∧
      (show_about_dialog w2 s).2.dialogs = s.dialogs ++ [r2] ∧
      r1.title = r2.title ∧
      r1.message = r2.message ∧
      r1.parent = some w1 ∧
      r2.parent = some w2 :=
  ⟨_, _, rfl, rfl, rfl, rfl, rfl, rfl⟩
